import Mathlib

/-!
Shallow embedding of two view components of the openobserve web front-end:
the PerformanceSummary dashboard page and the traces ingestion page.
Query parameters are modelled as ordered association lists of string keys
and string values; the JavaScript object-literal semantics (later keys
shadow earlier ones, undefined entries dropped) is captured by a last-wins
lookup. Duration utilities imported from the date/commons utility modules
are not part of the provided source and are modelled from the spec, as
marked on each such definition.
-/

namespace OO

/-- Query parameters: an ordered mapping of string keys to string values. -/
abbrev QueryParams := List (String × String)

/-- Last-wins disjunction on optional values, mirroring how a later key in a
JavaScript object literal shadows an earlier one. -/
def orO : Option String → Option String → Option String
  | some v, _ => some v
  | none, b => b

/-- Lookup of a key in query parameters, with the last binding winning, as in
a JavaScript object literal built with spreads. -/
def qlookup : QueryParams → String → Option String
  | [], _ => none
  | (k0, v) :: rest, k => orO (qlookup rest k) (if k0 = k then some v else none)

/-- Truthiness of an optional query-parameter value in JavaScript: a missing
key and an empty string are both falsy. -/
def truthy : Option String → Bool
  | none => false
  | some s => !(s == (""))

/-- A time-range selection: either a relative duration (a period label) or an
absolute pair of endpoint timestamps, exactly one representation active. -/
inductive TimeRangeSelection where
  | relative (period : String)
  | absolute (f : String) (t : String)
deriving DecidableEq, Repr

/-- Decimal digit rendered as a character. -/
def digitChar (d : Nat) : Char := Char.ofNat (48 + d)

/-- Character read back as a decimal digit. -/
def charDigit (c : Char) : Nat := c.toNat - 48

/-- Decimal representation of a number, most significant digit first. -/
def natToLabelChars (n : Nat) : List Char :=
  if n = 0 then [('0')] else ((Nat.digits 10 n).map digitChar).reverse

/-- Value of a most-significant-first decimal digit string. -/
def parseChars (cs : List Char) : Nat :=
  Nat.ofDigits 10 ((cs.map charDigit).reverse)

/-- Modelled from the spec: generateDurationLabel from the date utilities
(imported from a module not under src/). Serializes a RefreshInterval of n
seconds into a label such as 30s; the inverse of parseDuration. -/
def generateDurationLabel (n : Nat) : String := String.mk (natToLabelChars n ++ [('s')])

/-- Modelled from the spec: parseDuration from the date utilities (imported
from a module not under src/). Parses a duration label back into a number of
seconds, tolerant of malformed input, defaulting to zero. -/
def parseDuration (s : String) : Nat :=
  if s.data.getLast? = some ('s') then parseChars s.data.dropLast
  else if s.data.isEmpty then 0
  else parseChars s.data

/-- Modelled from the spec: getQueryParamsForDuration from the date utilities
(imported from a module not under src/). Serializes a TimeRangeSelection into
query parameters: a period key for a relative selection, from and to keys for
an absolute one. -/
def getQueryParamsForDuration : TimeRangeSelection → QueryParams
  | TimeRangeSelection.relative p => [(("period"), p)]
  | TimeRangeSelection.absolute f t => [(("from"), f), (("to"), t)]

/-- Modelled from the spec: getDurationObjectFromParams from the date
utilities (imported from a module not under src/). Derives a
TimeRangeSelection from query parameters, preferring a truthy period key and
otherwise a truthy from and to pair; none when neither form is present. -/
def getDurationObjectFromParams (q : QueryParams) : Option TimeRangeSelection :=
  if truthy (qlookup q ("period")) then
    (qlookup q ("period")).map TimeRangeSelection.relative
  else if truthy (qlookup q ("from")) && truthy (qlookup q ("to")) then
    match qlookup q ("from"), qlookup q ("to") with
    | some f, some t => some (TimeRangeSelection.absolute f t)
    | _, _ => none
  else none

/-- Validity of a TimeRangeSelection: every carried value is truthy (a falsy
empty string would be dropped by the JavaScript presence checks). -/
def validSelection : TimeRangeSelection → Bool
  | TimeRangeSelection.relative p => truthy (some p)
  | TimeRangeSelection.absolute f t => truthy (some f) && truthy (some t)

/-- Modelled from the spec: a minutes label parser used inside
getConsumableDateTime; a period label such as 15m denotes that many minutes. -/
def parseMinutes (s : String) : Nat :=
  if s.data.getLast? = some ('m') then parseChars s.data.dropLast
  else if s.data.isEmpty then 0
  else parseChars s.data

/-- Consumable time object: a concrete pair of start and end instants used by
downstream rendering. -/
structure ConsumableTime where
  startTime : Int
  endTime : Int
deriving DecidableEq, Repr

/-- Modelled from the spec: getConsumableDateTime from the commons utilities
(imported from a module not under src/). Derives the concrete start and end
instants from a selection at the current instant now: a relative period of m
minutes covers exactly the m minutes preceding now, an absolute selection
uses its endpoints, and an empty selection degenerates to now. -/
def getConsumableDateTime (now : Int) : Option TimeRangeSelection → ConsumableTime
  | some (TimeRangeSelection.relative p) => ⟨now - 60 * Int.ofNat (parseMinutes p), now⟩
  | some (TimeRangeSelection.absolute f t) =>
      ⟨Int.ofNat (parseChars f.data), Int.ofNat (parseChars t.data)⟩
  | none => ⟨now, now⟩

/-- State of the PerformanceSummary component: the reactive fields of its
setup function together with the current route query and the identifier of
the selected organization read from the store, plus the ambient clock. -/
structure PerfState where
  refreshInterval : Nat
  selectedDate : Option TimeRangeSelection
  currentDurationSelectionObj : Option TimeRangeSelection
  currentTimeObj : Option ConsumableTime
  routeQuery : QueryParams
  orgIdentifier : String
  activeTab : String
  viewOnly : Bool
  now : Int
deriving DecidableEq, Repr

/-- Navigation mode of a router call: replace keeps history, push extends it. -/
inductive NavMode where
  | replace
  | push
deriving DecidableEq, Repr

/-- A navigation issued to the router: its mode, an optional path, and the
query it carries. -/
structure Navigation where
  mode : NavMode
  path : Option String
  query : QueryParams
deriving DecidableEq, Repr

/-- Query-parameter entry for an optional value: a JavaScript object entry
whose value is undefined is dropped by the router normalization. -/
def optEntry (k : String) : Option String → QueryParams
  | some v => [(k, v)]
  | none => []

/-- Query parameters contributed by the spread of getQueryParamsForDuration
over the current selection; an undefined selection contributes nothing. -/
def durationQueryParams : Option TimeRangeSelection → QueryParams
  | none => []
  | some s => getQueryParamsForDuration s

/-- Query object built by the watcher on refreshInterval and selectedDate
(part_000 lines 163 to 173): organization identifier, dashboard and folder
carried verbatim from the current route query, the serialized refresh label,
and the spread of the serialized duration parameters. -/
def mkQuery (st : PerfState) : QueryParams :=
  [(("org_identifier"), st.orgIdentifier)] ++
  optEntry ("dashboard") (qlookup st.routeQuery ("dashboard")) ++
  optEntry ("folder") (qlookup st.routeQuery ("folder")) ++
  [(("refresh"), generateDurationLabel st.refreshInterval)] ++
  durationQueryParams st.selectedDate

/-- Body of the watcher on refreshInterval and selectedDate (part_000 lines
163 to 173): a router replace carrying the serialized state; after the
replace the current route query equals the query just written. -/
def onStateChanged (st : PerfState) : PerfState × Navigation :=
  let q := mkQuery st
  ({ st with routeQuery := q }, ⟨NavMode.replace, none, q⟩)

/-- Body of the watcher on selectedDate (part_000 lines 137 to 143): stores
the selection and recomputes the consumable time object from it. -/
def onTimeRangeChanged (st : PerfState) : PerfState :=
  { st with
    currentDurationSelectionObj := st.selectedDate,
    currentTimeObj := some (getConsumableDateTime st.now st.selectedDate) }

/-- The refreshData function (part_000 lines 131 to 135): recomputes the
consumable time object from the stored duration selection. -/
def refreshData (st : PerfState) : PerfState :=
  { st with
    currentTimeObj := some (getConsumableDateTime st.now st.currentDurationSelectionObj) }

/-- A user change of the refresh interval followed by the watcher on
refreshInterval and selectedDate. -/
def setRefreshInterval (st : PerfState) (v : Nat) : PerfState × Navigation :=
  onStateChanged { st with refreshInterval := v }

/-- A user change of the date selection followed by both watchers on
selectedDate, in registration order. -/
def setSelectedDate (st : PerfState) (sel : Option TimeRangeSelection) :
    PerfState × Navigation :=
  onStateChanged (onTimeRangeChanged { st with selectedDate := sel })

/-- The activation hook working with query parameters (part_000 lines 146 to
160): a truthy refresh parameter sets the refresh interval from parseDuration
and a truthy period, or truthy to and from pair, sets the selection from
getDurationObjectFromParams. -/
def onActivated (st : PerfState) : PerfState :=
  let params := st.routeQuery
  let st1 :=
    if truthy (qlookup params ("refresh")) then
      { st with refreshInterval := parseDuration ((qlookup params ("refresh")).getD ("")) }
    else st
  if truthy (qlookup params ("period")) ||
      (truthy (qlookup params ("to")) && truthy (qlookup params ("from"))) then
    { st1 with selectedDate := getDurationObjectFromParams params }
  else st1

/-- The goBackToDashboardList navigation (part_000 lines 110 to 118): a push
to the dashboards list carrying the dashboard verbatim and the folder with a
default of the literal string default when absent. -/
def goBackToDashboardList (st : PerfState) : Navigation :=
  ⟨NavMode.push, some ("/dashboards"),
    optEntry ("dashboard") (qlookup st.routeQuery ("dashboard")) ++
    [(("folder"), (qlookup st.routeQuery ("folder")).getD ("default"))]⟩

/-- The addPanelData navigation (part_000 lines 121 to 129): a push to the
add-panel page carrying the dashboard verbatim and the folder with a default
of the literal string default when absent. -/
def addPanelData (st : PerfState) : Navigation :=
  ⟨NavMode.push, some ("/dashboards/add_panel"),
    optEntry ("dashboard") (qlookup st.routeQuery ("dashboard")) ++
    [(("folder"), (qlookup st.routeQuery ("folder")).getD ("default"))]⟩

/-- The synchronization invariant of the spec: the route query parameters
equal the serialization of the current state. -/
def inSync (st : PerfState) : Prop := st.routeQuery = mkQuery st

/-- The state of the component right after setup with an empty route query:
refresh interval zero, no selection, empty consumable object, default tab. -/
def initState : PerfState :=
  { refreshInterval := 0
    selectedDate := none
    currentDurationSelectionObj := none
    currentTimeObj := none
    routeQuery := []
    orgIdentifier := ("default_org")
    activeTab := ("overview")
    viewOnly := true
    now := 0 }

/-- A row of the filtered list: a record with a name field. -/
structure Row where
  name : String
deriving DecidableEq, Repr

/-- ASCII lowering of one character, the behaviour of toLowerCase on the
ASCII range. -/
def lowerChar (c : Char) : Char :=
  if 65 ≤ c.toNat ∧ c.toNat ≤ 90 then Char.ofNat (c.toNat + 32) else c

/-- Lowering of a string, character by character. -/
def lowerStr (s : String) : String := String.mk (s.data.map lowerChar)

/-- Whether the second list is an initial segment of the first. -/
def beginsWith : List Char → List Char → Bool
  | _, [] => true
  | [], _ :: _ => false
  | c :: cs, d :: ds => c == d && beginsWith cs ds

/-- Whether the second list occurs contiguously inside the first, the
behaviour of the JavaScript includes method on strings. -/
def containsSub : List Char → List Char → Bool
  | [], sub => sub.isEmpty
  | c :: t, sub => beginsWith (c :: t) sub || containsSub t sub

/-- String containment, the JavaScript includes method. -/
def strIncludes (s sub : String) : Bool := containsSub s.data sub.data

/-- The filterData function (part_000 lines 184 to 193): lowers the query
once, then walks the rows in order pushing every row whose lowered name
includes the lowered query. -/
def filterData (rows : List Row) (terms : String) : List Row :=
  let t := lowerStr terms
  rows.foldl
    (fun filtered r => if strIncludes (lowerStr r.name) t then filtered ++ [r] else filtered)
    []

/-- The case-insensitive match predicate the spec describes for the list
filter. -/
def nameMatches (terms : String) (r : Row) : Bool :=
  strIncludes (lowerStr r.name) (lowerStr terms)

/-- A toast notification: severity, message and display duration in
milliseconds. -/
structure Notification where
  ntype : String
  message : String
  timeout : Nat
deriving DecidableEq, Repr

/-- State of the ingestion component relevant to the credential operations:
the stored organization passcode, the mirrored organization identifier, and
the identifier of the selected organization in the store. -/
structure OrgState where
  organizationPasscode : String
  currentOrgIdentifier : String
  selectedOrgIdentifier : String
deriving DecidableEq, Repr

/-- Payload of a credential-service response. -/
structure PasscodeData where
  token : String
  passcode : String
deriving DecidableEq, Repr

/-- Outcome of a remote credential call: a resolved response or a rejection
carrying the error text. -/
inductive CallOutcome where
  | resolved (d : PasscodeData)
  | rejected (e : String)
deriving DecidableEq, Repr

/-- A request issued to the organizations service. -/
inductive ServiceCall where
  | fetchPasscode (org : String)
  | resetPasscode (org : String)
deriving DecidableEq, Repr

/-- Handlers installed by getOrganizationPasscode (traces Index.vue lines 113
to 129): on a resolved response an empty token yields a negative toast and no
store write, a non-empty token stores the passcode and mirrors the
organization identifier; no rejection handler is installed, so a rejection
changes nothing and shows nothing. -/
def getOrganizationPasscodeHandlers (st : OrgState) :
    CallOutcome → OrgState × List Notification
  | CallOutcome.resolved d =>
      if d.token = ("") then
        (st, [⟨("negative"), ("API Key not found."), 5000⟩])
      else
        ({ st with
            organizationPasscode := d.passcode,
            currentOrgIdentifier := st.selectedOrgIdentifier }, [])
  | CallOutcome.rejected _ => (st, [])

/-- Handlers installed by updatePasscode (traces Index.vue lines 157 to 194):
on a resolved response an empty token yields a negative toast and no store
write, a non-empty token yields a positive toast, stores the passcode and
mirrors the organization identifier; a rejection yields a negative toast
whose message appends the error text, with no store write. -/
def updatePasscodeHandlers (st : OrgState) :
    CallOutcome → OrgState × List Notification
  | CallOutcome.resolved d =>
      if d.token = ("") then
        (st, [⟨("negative"), ("API Key not found."), 5000⟩])
      else
        ({ st with
            organizationPasscode := d.passcode,
            currentOrgIdentifier := st.selectedOrgIdentifier },
          [⟨("positive"), ("Token reset successfully."), 5000⟩])
  | CallOutcome.rejected e =>
      (st, [⟨("negative"), ("Error while updating Token.") ++ e, 5000⟩])

/-- One full run of a credential operation: the state after the handlers, the
notifications shown, and the service calls issued during the whole run. -/
structure OpRun where
  finalState : OrgState
  notifications : List Notification
  callsIssued : List ServiceCall
deriving DecidableEq, Repr

/-- Full run of getOrganizationPasscode for a given outcome of its single
service call. -/
def runGetOrganizationPasscode (st : OrgState) (outcome : CallOutcome) : OpRun :=
  let r := getOrganizationPasscodeHandlers st outcome
  ⟨r.1, r.2, [ServiceCall.fetchPasscode st.selectedOrgIdentifier]⟩

/-- Full run of updatePasscode for a given outcome of its single service
call. -/
def runUpdatePasscode (st : OrgState) (outcome : CallOutcome) : OpRun :=
  let r := updatePasscodeHandlers st outcome
  ⟨r.1, r.2, [ServiceCall.resetPasscode st.selectedOrgIdentifier]⟩

/-- A concrete ingestion-component state used in concrete instances. -/
def orgState0 : OrgState := ⟨("pass0"), ("org0"), ("org0")⟩

/-- A concrete dashboard state whose route query holds a nonempty refresh
label and a period, used in concrete instances. -/
def activatedState : PerfState :=
  { initState with routeQuery := [(("refresh"), ("30s")), (("period"), ("15m"))] }

/-- A concrete dashboard state with a nonzero refresh interval whose route
query holds a refresh key with an empty value, used in concrete instances. -/
def emptyRefreshState : PerfState :=
  { initState with refreshInterval := 30, routeQuery := [(("refresh"), (""))] }

theorem orO_some (v : String) (b : Option String) : orO (some v) b = some v := rfl

theorem orO_none (b : Option String) : orO none b = b := rfl

theorem orO_right_none (a : Option String) : orO a none = a := by
  cases a <;> rfl

theorem orO_assoc (a b c : Option String) : orO (orO a b) c = orO a (orO b c) := by
  cases a <;> cases b <;> rfl

theorem qlookup_nil (k : String) : qlookup [] k = none := rfl

theorem qlookup_cons (k0 v k : String) (rest : QueryParams) :
    qlookup ((k0, v) :: rest) k = orO (qlookup rest k) (if k0 = k then some v else none) := rfl

theorem qlookup_append (a b : QueryParams) (k : String) :
    qlookup (a ++ b) k = orO (qlookup b k) (qlookup a k) := by
  induction a with
  | nil => simp [qlookup, orO_right_none]
  | cons p t ih =>
      obtain ⟨k0, v⟩ := p
      simp only [List.cons_append, qlookup_cons, ih, orO_assoc]

theorem qlookup_optEntry (k0 k : String) (v : Option String) :
    qlookup (optEntry k0 v) k = if k0 = k then v else none := by
  cases v with
  | none => simp [optEntry, qlookup]
  | some s => simp [optEntry, qlookup, orO]

theorem charDigit_digitChar (d : Nat) (hd : d < 10) : charDigit (digitChar d) = d := by
  interval_cases d <;> decide

theorem map_charDigit_digitChar (l : List Nat) (h : ∀ d ∈ l, d < 10) :
    l.map (fun d => charDigit (digitChar d)) = l := by
  induction l with
  | nil => rfl
  | cons a t ih =>
      have ha : a < 10 := h a (List.mem_cons_self a t)
      have ht : ∀ d ∈ t, d < 10 := fun d hd => h d (List.mem_cons_of_mem a hd)
      simp [charDigit_digitChar a ha, ih ht]

theorem parseChars_natToLabelChars (n : Nat) : parseChars (natToLabelChars n) = n := by
  by_cases h0 : n = 0
  · subst h0
    decide
  · unfold parseChars natToLabelChars
    rw [if_neg h0, List.map_reverse, List.reverse_reverse, List.map_map]
    have hlt : ∀ d ∈ Nat.digits 10 n, d < 10 :=
      fun d hd => Nat.digits_lt_base (by norm_num) hd
    calc Nat.ofDigits 10 ((Nat.digits 10 n).map (charDigit ∘ digitChar))
        = Nat.ofDigits 10 (Nat.digits 10 n) := by
          rw [show (charDigit ∘ digitChar) = fun d => charDigit (digitChar d) from rfl,
            map_charDigit_digitChar _ hlt]
      _ = n := Nat.ofDigits_digits 10 n

theorem parseDuration_generateDurationLabel (n : Nat) :
    parseDuration (generateDurationLabel n) = n := by
  unfold parseDuration generateDurationLabel
  rw [show (String.mk (natToLabelChars n ++ [('s')])).data = natToLabelChars n ++ [('s')]
    from rfl]
  rw [List.getLast?_concat, if_pos rfl, List.dropLast_concat]
  exact parseChars_natToLabelChars n

theorem getDuration_roundtrip (s : TimeRangeSelection) (hs : validSelection s = true) :
    getDurationObjectFromParams (getQueryParamsForDuration s) = some s := by
  cases s with
  | relative p =>
      have hp : ¬ p = ("") := by
        simpa [validSelection, truthy] using hs
      simp [getQueryParamsForDuration, getDurationObjectFromParams, qlookup, truthy, orO, hp]
  | absolute f t =>
      have hf : ¬ f = ("") := by
        simpa [validSelection, truthy] using fun h => (by simp [validSelection, truthy, h] at hs)
      have ht : ¬ t = ("") := by
        simpa [validSelection, truthy] using fun h => (by simp [validSelection, truthy, h] at hs)
      simp [getQueryParamsForDuration, getDurationObjectFromParams, qlookup, truthy, orO, hf, ht]

theorem qlookup_duration_none (sel : Option TimeRangeSelection) (k : String)
    (h1 : ¬ (("period") : String) = k) (h2 : ¬ (("from") : String) = k)
    (h3 : ¬ (("to") : String) = k) :
    qlookup (durationQueryParams sel) k = none := by
  cases sel with
  | none => rfl
  | some s =>
      cases s with
      | relative p =>
          simp [durationQueryParams, getQueryParamsForDuration, qlookup, orO, h1]
      | absolute f t =>
          simp [durationQueryParams, getQueryParamsForDuration, qlookup, orO, h2, h3]

theorem qlookup_mkQuery_dashboard (st : PerfState) :
    qlookup (mkQuery st) ("dashboard") = qlookup st.routeQuery ("dashboard") := by
  simp [mkQuery, qlookup_append, qlookup_optEntry, qlookup_nil, qlookup_cons,
    orO_none, orO_right_none, orO_some, qlookup_duration_none]

theorem qlookup_mkQuery_folder (st : PerfState) :
    qlookup (mkQuery st) ("folder") = qlookup st.routeQuery ("folder") := by
  simp [mkQuery, qlookup_append, qlookup_optEntry, qlookup_nil, qlookup_cons,
    orO_none, orO_right_none, orO_some, qlookup_duration_none]

theorem mkQuery_routeQuery_invariant (st : PerfState) (q : QueryParams)
    (hd : qlookup q ("dashboard") = qlookup st.routeQuery ("dashboard"))
    (hf : qlookup q ("folder") = qlookup st.routeQuery ("folder")) :
    mkQuery { st with routeQuery := q } = mkQuery st := by
  simp [mkQuery, hd, hf]

theorem inSync_onStateChanged (st : PerfState) : inSync (onStateChanged st).1 := by
  show (onStateChanged st).1.routeQuery = mkQuery (onStateChanged st).1
  have h := mkQuery_routeQuery_invariant st (mkQuery st)
    (qlookup_mkQuery_dashboard st) (qlookup_mkQuery_folder st)
  simpa [onStateChanged] using h.symm

theorem foldl_filter_aux (p : Row → Bool) (rows : List Row) (acc : List Row) :
    rows.foldl (fun filtered r => if p r then filtered ++ [r] else filtered) acc
      = acc ++ rows.filter p := by
  induction rows generalizing acc with
  | nil => simp
  | cons r t ih =>
      by_cases hp : p r = true
      · simp [List.foldl_cons, hp, ih, List.filter_cons]
      · simp [List.foldl_cons, hp, ih, List.filter_cons]

theorem filterData_eq_filter (rows : List Row) (terms : String) :
    filterData rows terms = rows.filter (nameMatches terms) := by
  unfold filterData nameMatches
  rw [foldl_filter_aux]
  simp

/-- Claim C1, corrected: after every change to the refresh interval or the
time-range selection the watcher re-serializes the full state into the route
query, so the two agree at every state reached by a change; immediately
after initialization, before any change, they may differ. -/
theorem c1_query_synced_after_change (st : PerfState) (v : Nat)
    (sel : Option TimeRangeSelection) :
    inSync (setRefreshInterval st v).1 ∧ inSync (setSelectedDate st sel).1 :=
  ⟨inSync_onStateChanged _, inSync_onStateChanged _⟩

/-- Claim C1 fails as stated: activation with an empty route query changes
neither watched value, so no replace is issued and the query parameters stay
empty while the serialization of the current state is not empty. -/
theorem c1_counterexample : ¬ inSync (onActivated initState) := by
  unfold inSync
  decide

/-- Claim C2: serialization and parsing are inverse operations: for every
valid refresh interval r, parseDuration of generateDurationLabel of r is r,
and for every valid time-range selection s, getDurationObjectFromParams of
getQueryParamsForDuration of s reproduces s. -/
theorem c2_roundtrip :
    (∀ r : Nat, parseDuration (generateDurationLabel r) = r) ∧
    (∀ s : TimeRangeSelection, validSelection s = true →
      getDurationObjectFromParams (getQueryParamsForDuration s) = some s) :=
  ⟨parseDuration_generateDurationLabel, getDuration_roundtrip⟩

/-- Concrete instance of the round-trip theorem at a refresh interval of 30
seconds and a relative fifteen minute selection. -/
theorem c2_roundtrip_witness :
    parseDuration (generateDurationLabel 30) = 30 ∧
    getDurationObjectFromParams
        (getQueryParamsForDuration (TimeRangeSelection.relative ("15m")))
      = some (TimeRangeSelection.relative ("15m")) :=
  ⟨c2_roundtrip.1 30, c2_roundtrip.2 (TimeRangeSelection.relative ("15m")) (by decide)⟩

/-- Claim C3, corrected: the replace issued on every state change carries the
folder verbatim from the current route query, absent when absent; the literal
default fallback is applied only by the dashboard-list and add-panel push
navigations. -/
theorem c3_folder_verbatim (st : PerfState) :
    qlookup (onStateChanged st).2.query ("folder") = qlookup st.routeQuery ("folder") ∧
    qlookup (goBackToDashboardList st).query ("folder")
      = some ((qlookup st.routeQuery ("folder")).getD ("default")) ∧
    qlookup (addPanelData st).query ("folder")
      = some ((qlookup st.routeQuery ("folder")).getD ("default")) := by
  refine ⟨qlookup_mkQuery_folder st, ?_, ?_⟩ <;>
    simp [goBackToDashboardList, addPanelData, qlookup_append, qlookup_optEntry,
      qlookup_nil, qlookup_cons, orO_none, orO_right_none, orO_some]

/-- Claim C3 fails as stated: with the folder key absent from the route, the
replace issued on a state change carries no folder key at all instead of the
literal string default. -/
theorem c3_counterexample :
    qlookup initState.routeQuery ("folder") = none ∧
    ¬ qlookup (onStateChanged initState).2.query ("folder") = some ("default") := by
  decide

/-- Claim C4: every change of the refresh interval or the selection issues a
navigation replace, not a push, whose query holds exactly the organization
identifier, the dashboard and folder from the current route, the refresh
label from generateDurationLabel, and the duration parameters from
getQueryParamsForDuration of the selection. -/
theorem c4_replace_query_exact (st : PerfState) :
    (onStateChanged st).2.mode = NavMode.replace ∧
    (onStateChanged st).2.path = none ∧
    ∀ k : String,
      qlookup (onStateChanged st).2.query k =
        if k = ("org_identifier") then some st.orgIdentifier
        else if k = ("dashboard") then qlookup st.routeQuery ("dashboard")
        else if k = ("folder") then qlookup st.routeQuery ("folder")
        else if k = ("refresh") then some (generateDurationLabel st.refreshInterval)
        else qlookup (durationQueryParams st.selectedDate) k := by
  refine ⟨rfl, rfl, ?_⟩
  intro k
  show qlookup (mkQuery st) k = _
  by_cases h1 : k = ("org_identifier")
  · subst h1
    simp [mkQuery, qlookup_append, qlookup_optEntry, qlookup_nil, qlookup_cons,
      orO_none, orO_right_none, orO_some, qlookup_duration_none]
  · by_cases h2 : k = ("dashboard")
    · subst h2
      simp [mkQuery, qlookup_append, qlookup_optEntry, qlookup_nil, qlookup_cons,
        orO_none, orO_right_none, orO_some, qlookup_duration_none]
    · by_cases h3 : k = ("folder")
      · subst h3
        simp [mkQuery, qlookup_append, qlookup_optEntry, qlookup_nil, qlookup_cons,
          orO_none, orO_right_none, orO_some, qlookup_duration_none]
      · by_cases h4 : k = ("refresh")
        · subst h4
          simp [mkQuery, qlookup_append, qlookup_optEntry, qlookup_nil, qlookup_cons,
            orO_none, orO_right_none, orO_some, qlookup_duration_none]
        · simp [mkQuery, qlookup_append, qlookup_optEntry, qlookup_nil, qlookup_cons,
            orO_none, orO_right_none, orO_some, h1, h2, h3, h4,
            Ne.symm h1, Ne.symm h2, Ne.symm h3, Ne.symm h4]

/-- Claim C5, corrected: on activation a truthy (present and non-empty)
refresh parameter sets the refresh interval to parseDuration of its value,
and a truthy period, or a truthy to and from pair, sets the selection to
getDurationObjectFromParams of the parameters. -/
theorem c5_activation_sets_state (st : PerfState) :
    (truthy (qlookup st.routeQuery ("refresh")) = true →
      (onActivated st).refreshInterval
        = parseDuration ((qlookup st.routeQuery ("refresh")).getD (""))) ∧
    ((truthy (qlookup st.routeQuery ("period")) ||
        (truthy (qlookup st.routeQuery ("to")) && truthy (qlookup st.routeQuery ("from"))))
        = true →
      (onActivated st).selectedDate = getDurationObjectFromParams st.routeQuery) := by
  constructor
  · intro h
    simp only [onActivated, h, if_true]
    split <;> rfl
  · intro h
    simp only [onActivated, h, if_true]

/-- Concrete instance of the activation theorem on a route query carrying a
nonempty refresh label and a period. -/
theorem c5_activation_sets_state_witness :
    (truthy (qlookup activatedState.routeQuery ("refresh")) = true ∧
      (onActivated activatedState).refreshInterval
        = parseDuration ((qlookup activatedState.routeQuery ("refresh")).getD (""))) ∧
    ((truthy (qlookup activatedState.routeQuery ("period")) ||
        (truthy (qlookup activatedState.routeQuery ("to")) &&
          truthy (qlookup activatedState.routeQuery ("from")))) = true ∧
      (onActivated activatedState).selectedDate
        = getDurationObjectFromParams activatedState.routeQuery) :=
  ⟨⟨by decide, (c5_activation_sets_state activatedState).1 (by decide)⟩,
    ⟨by decide, (c5_activation_sets_state activatedState).2 (by decide)⟩⟩

/-- Claim C5 fails as stated: a refresh key that is present with an empty
value is falsy in the activation check, so activation leaves a nonzero
refresh interval unchanged instead of setting it to parseDuration of the
value. -/
theorem c5_counterexample :
    (qlookup emptyRefreshState.routeQuery ("refresh")).isSome = true ∧
    ¬ (onActivated emptyRefreshState).refreshInterval
        = parseDuration ((qlookup emptyRefreshState.routeQuery ("refresh")).getD ("")) := by
  decide

/-- Claim C6: filterData returns exactly the rows whose name contains the
query case-insensitively, as the order-preserving subsequence of the input,
and on the rows named Alpha and beta with query a it returns both rows in
their original order. -/
theorem c6_filter_spec :
    (∀ (rows : List Row) (terms : String),
      filterData rows terms = rows.filter (nameMatches terms)) ∧
    (∀ (rows : List Row) (terms : String), (filterData rows terms).Sublist rows) ∧
    filterData [⟨("Alpha")⟩, ⟨("beta")⟩] ("a") = [⟨("Alpha")⟩, ⟨("beta")⟩] := by
  refine ⟨filterData_eq_filter, ?_, ?_⟩
  · intro rows terms
    rw [filterData_eq_filter]
    exact List.filter_sublist rows
  · decide

/-- Claim C7: every credential-service response with an empty token, on fetch
or on reset, produces exactly one negative notification saying API Key not
found with the fixed timeout, and leaves the component state, in particular
the stored passcode, unchanged. -/
theorem c7_empty_token (st : OrgState) (d : PasscodeData) (h : d.token = ("")) :
    getOrganizationPasscodeHandlers st (CallOutcome.resolved d)
      = (st, [⟨("negative"), ("API Key not found."), 5000⟩]) ∧
    updatePasscodeHandlers st (CallOutcome.resolved d)
      = (st, [⟨("negative"), ("API Key not found."), 5000⟩]) := by
  constructor <;> simp [getOrganizationPasscodeHandlers, updatePasscodeHandlers, h]

/-- Concrete instance of the empty-token theorem on the fetch handlers. -/
theorem c7_empty_token_witness :
    (PasscodeData.mk ("") ("p1")).token = ("") ∧
    getOrganizationPasscodeHandlers orgState0 (CallOutcome.resolved ⟨(""), ("p1")⟩)
      = (orgState0, [⟨("negative"), ("API Key not found."), 5000⟩]) :=
  ⟨rfl, (c7_empty_token orgState0 ⟨(""), ("p1")⟩ rfl).1⟩

/-- Claim C8, corrected: a rejected passcode reset produces exactly one
negative toast with the fixed five second timeout, issues exactly one service
call, and leaves the component state unchanged; the passcode fetch installs
no rejection handler, so a rejected fetch produces no toast while likewise
issuing exactly one call and leaving the state unchanged. -/
theorem c8_failure_handling (st : OrgState) (e : String) :
    (runUpdatePasscode st (CallOutcome.rejected e)).notifications
      = [⟨("negative"), ("Error while updating Token.") ++ e, 5000⟩] ∧
    (runUpdatePasscode st (CallOutcome.rejected e)).finalState = st ∧
    (runUpdatePasscode st (CallOutcome.rejected e)).callsIssued
      = [ServiceCall.resetPasscode st.selectedOrgIdentifier] ∧
    (runGetOrganizationPasscode st (CallOutcome.rejected e)).notifications = [] ∧
    (runGetOrganizationPasscode st (CallOutcome.rejected e)).finalState = st ∧
    (runGetOrganizationPasscode st (CallOutcome.rejected e)).callsIssued
      = [ServiceCall.fetchPasscode st.selectedOrgIdentifier] :=
  ⟨rfl, rfl, rfl, rfl, rfl, rfl⟩

/-- Claim C8 fails as stated: a rejected passcode fetch produces no
notification at all, in particular no negative toast. -/
theorem c8_counterexample :
    ¬ ∃ n ∈ (runGetOrganizationPasscode orgState0
        (CallOutcome.rejected ("boom"))).notifications,
      n.ntype = ("negative") := by
  decide

/-- Claim C9: whenever the selection changes, the selection watcher
recomputes the consumable time object as getConsumableDateTime of the new
selection and stores that selection, leaving every other field of the
component untouched. -/
theorem c9_time_recompute (st : PerfState) :
    (onTimeRangeChanged st).currentTimeObj
      = some (getConsumableDateTime st.now st.selectedDate) ∧
    (onTimeRangeChanged st).currentDurationSelectionObj = st.selectedDate ∧
    (onTimeRangeChanged st).refreshInterval = st.refreshInterval ∧
    (onTimeRangeChanged st).selectedDate = st.selectedDate ∧
    (onTimeRangeChanged st).routeQuery = st.routeQuery ∧
    (onTimeRangeChanged st).orgIdentifier = st.orgIdentifier ∧
    (onTimeRangeChanged st).activeTab = st.activeTab ∧
    (onTimeRangeChanged st).viewOnly = st.viewOnly ∧
    (onTimeRangeChanged st).now = st.now :=
  ⟨rfl, rfl, rfl, rfl, rfl, rfl, rfl, rfl, rfl⟩

/-- Claim C10: activation is frame-preserving: an absent refresh key leaves
the refresh interval unchanged, absence of a period key and of a complete to
and from pair leaves the selection unchanged, and with all of them absent
activation changes no state field at all. -/
theorem c10_activation_frame (st : PerfState) :
    (qlookup st.routeQuery ("refresh") = none →
      (onActivated st).refreshInterval = st.refreshInterval) ∧
    (qlookup st.routeQuery ("period") = none ∧
        (qlookup st.routeQuery ("to") = none ∨ qlookup st.routeQuery ("from") = none) →
      (onActivated st).selectedDate = st.selectedDate) ∧
    (qlookup st.routeQuery ("refresh") = none ∧ qlookup st.routeQuery ("period") = none ∧
        (qlookup st.routeQuery ("to") = none ∨ qlookup st.routeQuery ("from") = none) →
      onActivated st = st) := by
  refine ⟨?_, ?_, ?_⟩
  · intro h
    have hc : ¬ truthy (qlookup st.routeQuery ("refresh")) = true := by
      simp [h, truthy]
    simp only [onActivated]
    rw [if_neg hc]
    split <;> rfl
  · rintro ⟨hp, hto⟩
    have hc : ¬ (truthy (qlookup st.routeQuery ("period")) ||
        (truthy (qlookup st.routeQuery ("to")) &&
          truthy (qlookup st.routeQuery ("from")))) = true := by
      rcases hto with hto | hfrom
      · simp [hp, hto, truthy]
      · simp [hp, hfrom, truthy]
    simp only [onActivated]
    rw [if_neg hc]
    split <;> rfl
  · rintro ⟨hr, hp, hto⟩
    have hcr : ¬ truthy (qlookup st.routeQuery ("refresh")) = true := by
      simp [hr, truthy]
    have hc : ¬ (truthy (qlookup st.routeQuery ("period")) ||
        (truthy (qlookup st.routeQuery ("to")) &&
          truthy (qlookup st.routeQuery ("from")))) = true := by
      rcases hto with hto | hfrom
      · simp [hp, hto, truthy]
      · simp [hp, hfrom, truthy]
    simp only [onActivated]
    rw [if_neg hcr, if_neg hc]

/-- Concrete instance of the activation frame theorem on an empty route
query: activation changes nothing at all. -/
theorem c10_activation_frame_witness :
    (qlookup initState.routeQuery ("refresh") = none ∧
      qlookup initState.routeQuery ("period") = none ∧
      (qlookup initState.routeQuery ("to") = none ∨
        qlookup initState.routeQuery ("from") = none)) ∧
    onActivated initState = initState :=
  ⟨⟨rfl, rfl, Or.inl rfl⟩,
    (c10_activation_frame initState).2.2 ⟨rfl, rfl, Or.inl rfl⟩⟩

end OO
